import Mathlib

/-!
Shallow embedding of `rest_framework_extensions/key_constructor/bits.py`:
the cache-key "bit" strategies, each of which extracts one fragment of a
cache key from the request/view context.  Python dictionaries are modelled
as partial maps, Python `None` as an explicit value constructor, and the
exceptions that the source raises or catches as an explicit error type.
-/

/-- A Python value as it occurs in the source mappings handled by the key
bits: a piece of text, an integer, or Python `None`. -/
inductive PyVal where
  | str (s : String)
  | int (n : Int)
  | pyNone
deriving DecidableEq

/-- `force_text` from `rest_framework_extensions.compat`: coerce a value to
text, as Python `str` does. -/
def force_text : PyVal → String
  | .str s => s
  | .int n => toString n
  | .pyNone => "None"

/-- Exceptions relevant to the source: `ValueError` (caught by the
retrieve-SQL bit), `KeyError` (raised by `kwargs[...]` on a missing key),
`IndexError` (raised by `args[i]` out of range), `TypeError`. -/
inductive PyErr where
  | valueError
  | keyError
  | indexError
  | typeError
deriving DecidableEq

/-- A source mapping (request.META, request.GET, call kwargs): `none`
models an absent key, `some PyVal.pyNone` a key stored with value `None`. -/
abbrev SourceDict := String → Option PyVal

/-- Python `dict.get(key)`: the stored value, or `None` when absent. -/
def SourceDict.get (d : SourceDict) (key : String) : PyVal :=
  (d key).getD PyVal.pyNone

/-- The result dictionary built by the dict-source bits: text values only. -/
abbrev PyDict := String → Option String

def emptyDict : PyDict := fun _ => none

/-- `data[key] = value` on a Python dict. -/
def dictInsert (d : PyDict) (key value : String) : PyDict :=
  fun k => if k = key then some value else d k

/-- Association lookup in a keyword-argument list (a Python dict whose
keys are unique); models both `kwargs.get(k)` and `kwargs[k]` probing. -/
def pyDictGet : List (String × PyVal) → String → Option PyVal
  | [], _ => none
  | (k, v) :: rest, key => if key = k then some v else pyDictGet rest key

/-- One iteration of the loop in `KeyBitDictBase.get_data`:
`value = source_dict.get(prepare_key_for_value_retrieving(key))`;
`if value is not None: data[prepare_key_for_value_assignment(key)] =
force_text(value)`. -/
def KeyBitDictBase.step (source_dict : SourceDict)
    (pr pa : String → String) (data : PyDict) (key : String) : PyDict :=
  if SourceDict.get source_dict (pr key) ≠ PyVal.pyNone then
    dictInsert data (pa key) (force_text (SourceDict.get source_dict (pr key)))
  else data

/-- `KeyBitDictBase.get_data`, parametrized by the source mapping returned
by `get_source_dict` and by the two key-transform hooks
(`prepare_key_for_value_retrieving` as `pr`, `prepare_key_for_value_assignment`
as `pa`, both the identity in the base class). -/
def KeyBitDictBase.get_data (source_dict : SourceDict)
    (pr pa : String → String) (params : List String) : PyDict :=
  params.foldl (KeyBitDictBase.step source_dict pr pa) emptyDict

/-- Python `str.lower()`, character by character (header names are
ASCII). -/
def pyLower (s : String) : String :=
  String.mk (s.data.map Char.toLower)

/-- Modelled from the spec: `prepare_header_name` from
`rest_framework_extensions.utils` (that module is not among the sources);
it turns an already lower-cased canonical header name into its environment
lookup form, e.g. `"accept-language"` into `"http_accept_language"`,
replacing every dash by an underscore and prepending `"http_"`. -/
def prepare_header_name (header : String) : String :=
  "http_" ++ String.mk (header.data.map (fun c => if c = '-' then '_' else c))

/-- `HeadersKeyBit.get_data`: source mapping is `request.META`; retrieval
key is `prepare_header_name(key.lower())`, assignment key is `key.lower()`. -/
def HeadersKeyBit.get_data (META : SourceDict) (params : List String) : PyDict :=
  KeyBitDictBase.get_data META
    (fun key => prepare_header_name (pyLower key))
    (fun key => pyLower key)
    params

/-- `RequestMetaKeyBit.get_data`: source mapping is `request.META`, keys
used unmodified. -/
def RequestMetaKeyBit.get_data (META : SourceDict) (params : List String) : PyDict :=
  KeyBitDictBase.get_data META id id params

/-- `QueryParamsKeyBit.get_data`: source mapping is `request.GET`, keys
used unmodified. -/
def QueryParamsKeyBit.get_data (GET : SourceDict) (params : List String) : PyDict :=
  KeyBitDictBase.get_data GET id id params

/-- A view instance as seen by `PaginationKeyBit`: `none` models a view on
which `hasattr` fails for the corresponding attribute. -/
structure PaginatedView where
  page_kwarg : Option String
  paginate_by_param : Option String

/-- `PaginationKeyBit.get_data`: sets `kwargs['params'] = []`, appends the
view's `page_kwarg` and `paginate_by_param` when present, then delegates to
the query-params bit.  The incoming `params` argument is overwritten. -/
def PaginationKeyBit.get_data (view_instance : PaginatedView)
    (params : List String) (GET : SourceDict) : PyDict :=
  let ps0 : List String := []
  let ps1 := match view_instance.page_kwarg with
    | some p => ps0 ++ [p]
    | none => ps0
  let ps2 := match view_instance.paginate_by_param with
    | some p => ps1 ++ [p]
    | none => ps1
  QueryParamsKeyBit.get_data GET ps2

/-- A Django-style user object: truthy, with an `id` and an
`is_authenticated()` result. -/
structure PyUser where
  id : Int
  is_authenticated : Bool
deriving DecidableEq

/-- The `user` reference of a request: the attribute may be missing
altogether (`hasattr(request, 'user')` is false), be `None` (falsy), or
hold a user object. -/
inductive RequestUser where
  | noAttr
  | attr (user : Option PyUser)
deriving DecidableEq

/-- `UserKeyBit.get_data`: `request.user.id` as text when
`hasattr(request, 'user') and request.user and request.user.is_authenticated()`,
else the literal `'anonymous'`. -/
def UserKeyBit.get_data : RequestUser → String
  | .attr (some user) =>
      if user.is_authenticated then force_text (.int user.id) else "anonymous"
  | .attr none => "anonymous"
  | .noAttr => "anonymous"

/-- A queryset: whether it is an instance of the `EmptyQuerySet` sentinel
class, and the text of its compiled `query`. -/
structure QuerySet where
  is_empty_sentinel : Bool
  query : String
deriving DecidableEq

/-- A view instance as seen by the SQL key bits: `filtered_queryset`
models `view_instance.filter_queryset(view_instance.get_queryset())`, and
`filter_by field value` models the further
`.filter(**{lookup_field: lookup_value})` narrowing, which may raise. -/
structure SqlView where
  filtered_queryset : QuerySet
  lookup_field : String
  view_kwargs : List (String × PyVal)
  filter_by : String → PyVal → Except PyErr QuerySet

/-- `ListSqlQueryKeyBit.get_data`: `None` for the empty-queryset sentinel,
otherwise the text of the compiled query. -/
def ListSqlQueryKeyBit.get_data (view_instance : SqlView) : Option String :=
  if view_instance.filtered_queryset.is_empty_sentinel then none
  else some (force_text (.str view_instance.filtered_queryset.query))

/-- `RetrieveSqlQueryKeyBit.get_data`: looks up
`view_instance.kwargs[view_instance.lookup_field]` (a missing key raises
`KeyError`, outside the `try`), then filters; a `ValueError` from the
filtering is caught and turned into `None`, other errors propagate. -/
def RetrieveSqlQueryKeyBit.get_data (view_instance : SqlView) :
    Except PyErr (Option String) :=
  match pyDictGet view_instance.view_kwargs view_instance.lookup_field with
  | none => .error .keyError
  | some lookup_value =>
    match view_instance.filter_by view_instance.lookup_field lookup_value with
    | .error .valueError => .ok none
    | .error e => .error e
    | .ok queryset =>
        .ok (if queryset.is_empty_sentinel then none
             else some (force_text (.str queryset.query)))

/-- `ArgsKeyBit.get_data`: the full positional-argument list, or the
subsequence at the configured indices (`IndexError` when out of range). -/
def ArgsKeyBit.get_data (params : Option (List Nat)) (args : List PyVal) :
    Except PyErr (List PyVal) :=
  match params with
  | none => .ok args
  | some idxs =>
    match idxs.mapM (fun i => args.get? i) with
    | some picked => .ok picked
    | none => .error .indexError

/-- Python truthiness in `params or kwargs.keys()`: `None` and the empty
list are falsy. -/
def pyOrKeys (params : Option (List String)) (keys : List String) : List String :=
  match params with
  | none => keys
  | some l => if l.isEmpty then keys else l

/-- `KwargsKeyBit.get_data`: source mapping is the call's keyword
arguments; `params or kwargs.keys()` selects the fields. -/
def KwargsKeyBit.get_data (params : Option (List String))
    (kwargs : List (String × PyVal)) : PyDict :=
  KeyBitDictBase.get_data (pyDictGet kwargs) id id
    (pyOrKeys params (kwargs.map Prod.fst))

/-- View identity data used by the unique-id bits. -/
structure ViewIdent where
  module : String
  class_name : String
deriving DecidableEq

/-- `UniqueViewIdKeyBit.get_data`: `'.'.join([module, class name])`. -/
def UniqueViewIdKeyBit.get_data (view_instance : ViewIdent) : String :=
  String.intercalate "." [view_instance.module, view_instance.class_name]

/-- `UniqueMethodIdKeyBit.get_data`: `'.'.join([module, class, method])`. -/
def UniqueMethodIdKeyBit.get_data (view_instance : ViewIdent)
    (method_name : String) : String :=
  String.intercalate "."
    [view_instance.module, view_instance.class_name, method_name]

/-- `LanguageKeyBit.get_data`: `force_text(get_language())`, the active
language being an input of the request snapshot. -/
def LanguageKeyBit.get_data (active_language : String) : String :=
  force_text (.str active_language)

/-- `FormatKeyBit.get_data`: `force_text(request.accepted_renderer.format)`. -/
def FormatKeyBit.get_data (accepted_renderer_format : String) : String :=
  force_text (.str accepted_renderer_format)

/-! ### Helper lemmas about the dict-source loop -/

/-- If the retrieval key of `k` is absent (or null) in the source, and the
retrieval transform factors through the assignment transform (as it does in
every subclass in the source), the loop never writes to `pa k`. -/
theorem stepFold_absent (source_dict : SourceDict)
    (pr pa g : String → String) (hg : ∀ s, pr s = g (pa s))
    (k : String) (hk : SourceDict.get source_dict (pr k) = PyVal.pyNone) :
    ∀ (params : List String) (d : PyDict), d (pa k) = none →
      (params.foldl (KeyBitDictBase.step source_dict pr pa) d) (pa k) = none := by
  intro params
  induction params with
  | nil => intro d hd; exact hd
  | cons key rest ih =>
    intro d hd
    rw [List.foldl_cons]
    apply ih
    by_cases hv : SourceDict.get source_dict (pr key) = PyVal.pyNone
    · simp [KeyBitDictBase.step, hv, hd]
    · by_cases hkk : pa k = pa key
      · exfalso
        apply hv
        have hpr : pr key = pr k := by rw [hg k, hg key, hkk]
        rw [hpr, hk]
      · simp [KeyBitDictBase.step, hv, dictInsert, hkk, hd]

/-- If the retrieval key of `k` holds the non-null value `v` in the source,
and the retrieval transform factors through the assignment transform, the
loop ends with `pa k ↦ force_text v`. -/
theorem stepFold_present (source_dict : SourceDict)
    (pr pa g : String → String) (hg : ∀ s, pr s = g (pa s))
    (k : String) (v : PyVal) (hk : SourceDict.get source_dict (pr k) = v)
    (hv : v ≠ PyVal.pyNone) :
    ∀ (params : List String) (d : PyDict),
      (d (pa k) = some (force_text v) ∨ k ∈ params) →
      (params.foldl (KeyBitDictBase.step source_dict pr pa) d) (pa k)
        = some (force_text v) := by
  intro params
  induction params with
  | nil =>
    intro d hd
    cases hd with
    | inl h => exact h
    | inr h => exact absurd h (List.not_mem_nil k)
  | cons key rest ih =>
    intro d hd
    rw [List.foldl_cons]
    apply ih
    cases hd with
    | inr hmem =>
      cases List.mem_cons.mp hmem with
      | inl heq =>
        subst heq
        left
        simp [KeyBitDictBase.step, hk, hv, dictInsert]
      | inr hrest => exact Or.inr hrest
    | inl hstored =>
      left
      by_cases hv' : SourceDict.get source_dict (pr key) = PyVal.pyNone
      · simpa [KeyBitDictBase.step, hv'] using hstored
      · by_cases hkk : pa k = pa key
        · have hpr : pr key = pr k := by rw [hg k, hg key, hkk]
          simp [KeyBitDictBase.step, hv', dictInsert, hkk, hpr, hk, hv]
        · simpa [KeyBitDictBase.step, hv', dictInsert, hkk] using hstored

/-! ### Concrete sample inputs -/

def sampleSource : SourceDict := fun k =>
  if k = "a" then some (PyVal.str "x") else none

def sampleMETA : SourceDict := fun k =>
  if k = "http_accept_language" then some (PyVal.str "ru") else none

def paginationGET : SourceDict := fun k =>
  if k = "page" then some (PyVal.str "1")
  else if k = "page_size" then some (PyVal.str "100")
  else if k = "filter" then some (PyVal.str "active")
  else none

def paginationExampleGET : SourceDict := fun k =>
  if k = "page" then some (PyVal.str "1")
  else if k = "page_size" then some (PyVal.str "100")
  else none

def paginationView : PaginatedView := ⟨some "page", some "page_size"⟩

def badLookupView : SqlView :=
  ⟨⟨false, "SELECT 1"⟩, "pk", [("pk", PyVal.str "abc")],
   fun _ _ => .error .valueError⟩

def emptyListView : SqlView :=
  ⟨⟨true, ""⟩, "pk", [], fun _ _ => .error .valueError⟩

def kwargsSample : List (String × PyVal) :=
  [("id", PyVal.str "5"), ("format", PyVal.str "json")]

/-! ### Claim theorems -/

/-- Claim C1: for every dict-source key bit (the base `get_data` with the
source mapping and the two key transforms of the subclass; in every subclass
in the source the retrieval transform factors through the assignment
transform, witnessed by `g`), a configured field whose retrieval key is
absent or null contributes no key, and a present field maps its assignment
key to the text coercion of the source value. -/
theorem keyBitDictBase_getData_spec
    (source_dict : SourceDict) (pr pa g : String → String)
    (hg : ∀ s, pr s = g (pa s))
    (params : List String) (k : String) (hk : k ∈ params) :
    (SourceDict.get source_dict (pr k) = PyVal.pyNone →
      KeyBitDictBase.get_data source_dict pr pa params (pa k) = none) ∧
    (∀ v : PyVal, SourceDict.get source_dict (pr k) = v → v ≠ PyVal.pyNone →
      KeyBitDictBase.get_data source_dict pr pa params (pa k)
        = some (force_text v)) := by
  constructor
  · intro habs
    exact stepFold_absent source_dict pr pa g hg k habs params emptyDict rfl
  · intro v hv hvn
    exact stepFold_present source_dict pr pa g hg k v hv hvn params emptyDict
      (Or.inr hk)

/-- Witness for C1 at a concrete source mapping: field `"a"` is present
with value `"x"`, so its key is assigned the coerced text. -/
theorem keyBitDictBase_getData_spec_witness :
    KeyBitDictBase.get_data sampleSource id id ["a", "b"] "a" = some "x" :=
  (keyBitDictBase_getData_spec sampleSource id id id (fun _ => rfl)
      ["a", "b"] "a" (by decide)).2 (PyVal.str "x") (by decide) (by decide)

/-- Claim C2 counterexample: the field `"filter"` is explicitly configured
and present in the query parameters, yet the pagination bit's output drops
it — `get_data` overwrites the configured fields instead of adding the page
parameters to them. -/
theorem paginationKeyBit_drops_configured_fields :
    paginationGET "filter" = some (PyVal.str "active") ∧
    PaginationKeyBit.get_data paginationView ["filter"] paginationGET "filter"
      = none ∧
    PaginationKeyBit.get_data paginationView ["filter"] paginationGET "filter"
      ≠ some "active" := by
  refine ⟨rfl, rfl, ?_⟩
  intro h
  exact Option.noConfusion h

/-- Claim C2 (amended): the pagination bit's `get_data` ignores the
explicitly configured fields entirely and looks up only the view's declared
page-number and page-size parameter names (each only if the view declares
it); on the claim's concrete example (view declaring `"page"` and
`"page_size"`, query parameters `page=1, page_size=100`, no configured
fields) the output is exactly `{"page": "1", "page_size": "100"}`. -/
theorem paginationKeyBit_amended :
    (∀ (view_instance : PaginatedView) (params1 params2 : List String)
        (GET : SourceDict),
      PaginationKeyBit.get_data view_instance params1 GET
        = PaginationKeyBit.get_data view_instance params2 GET) ∧
    PaginationKeyBit.get_data paginationView [] paginationExampleGET
      = dictInsert (dictInsert emptyDict "page" "1") "page_size" "100" :=
  ⟨fun _ _ _ _ => rfl, rfl⟩

/-- Claim C3: when the lookup value resolved from the view's path
parameters makes the filtering raise `ValueError`, the retrieve-SQL bit
returns the absent-value signal and no exception escapes (the result is
`ok`, not `error`). -/
theorem retrieveSqlQueryKeyBit_valueError
    (view_instance : SqlView) (lookup_value : PyVal)
    (hlook : pyDictGet view_instance.view_kwargs view_instance.lookup_field
      = some lookup_value)
    (hfail : view_instance.filter_by view_instance.lookup_field lookup_value
      = .error .valueError) :
    RetrieveSqlQueryKeyBit.get_data view_instance = .ok none := by
  simp [RetrieveSqlQueryKeyBit.get_data, hlook, hfail]

/-- Witness for C3: a concrete view whose filtering raises `ValueError` on
the malformed lookup value `"abc"`. -/
theorem retrieveSqlQueryKeyBit_valueError_witness :
    RetrieveSqlQueryKeyBit.get_data badLookupView = .ok none :=
  retrieveSqlQueryKeyBit_valueError badLookupView (PyVal.str "abc") rfl rfl

/-- Claim C4: the list-SQL bit returns the absent-value signal (`none`,
which differs from an empty string contribution) exactly when the filtered
queryset is the empty sentinel, and the text of the compiled query
otherwise. -/
theorem listSqlQueryKeyBit_spec (view_instance : SqlView) :
    (view_instance.filtered_queryset.is_empty_sentinel = true →
      ListSqlQueryKeyBit.get_data view_instance = none ∧
      ListSqlQueryKeyBit.get_data view_instance ≠ some "") ∧
    (view_instance.filtered_queryset.is_empty_sentinel = false →
      ListSqlQueryKeyBit.get_data view_instance
        = some (force_text (PyVal.str view_instance.filtered_queryset.query))) := by
  constructor
  · intro h
    constructor
    · simp [ListSqlQueryKeyBit.get_data, h]
    · simp [ListSqlQueryKeyBit.get_data, h]
  · intro h
    simp [ListSqlQueryKeyBit.get_data, h]

/-- Witness for C4 at a concrete empty-sentinel queryset. -/
theorem listSqlQueryKeyBit_spec_witness :
    ListSqlQueryKeyBit.get_data emptyListView = none ∧
    ListSqlQueryKeyBit.get_data emptyListView ≠ some "" :=
  (listSqlQueryKeyBit_spec emptyListView).1 rfl

/-- Claim C5: the user bit returns the text form of the authenticated
user's identifier, and exactly `"anonymous"` whenever the request has no
authenticated user; identifier `10` yields `"10"`. -/
theorem userKeyBit_spec :
    (∀ user : PyUser, user.is_authenticated = true →
      UserKeyBit.get_data (RequestUser.attr (some user))
        = force_text (PyVal.int user.id)) ∧
    (∀ r : RequestUser,
      (∀ user : PyUser, r = RequestUser.attr (some user) →
        user.is_authenticated = false) →
      UserKeyBit.get_data r = "anonymous") ∧
    (∀ user : PyUser, user.is_authenticated = true → user.id = 10 →
      UserKeyBit.get_data (RequestUser.attr (some user)) = "10") := by
  refine ⟨?_, ?_, ?_⟩
  · intro user h
    simp [UserKeyBit.get_data, h]
  · intro r h
    cases r with
    | noAttr => rfl
    | attr u =>
      cases u with
      | none => rfl
      | some user => simp [UserKeyBit.get_data, h user rfl]
  · intro user h hid
    simp [UserKeyBit.get_data, h, hid]
    rfl

/-- Witness for C5: the authenticated user with identifier `10`. -/
theorem userKeyBit_spec_witness :
    UserKeyBit.get_data (RequestUser.attr (some ⟨10, true⟩)) = "10" :=
  userKeyBit_spec.2.2 ⟨10, true⟩ rfl rfl

/-- Claim C9: a request without a `user` attribute, with a falsy (`None`)
user, or with an unauthenticated user yields `"anonymous"` without raising;
the authenticated branch is taken only for a truthy, authenticated user. -/
theorem userKeyBit_missing_or_falsy :
    UserKeyBit.get_data RequestUser.noAttr = "anonymous" ∧
    UserKeyBit.get_data (RequestUser.attr none) = "anonymous" ∧
    (∀ user : PyUser, user.is_authenticated = false →
      UserKeyBit.get_data (RequestUser.attr (some user)) = "anonymous") ∧
    (∀ r : RequestUser, UserKeyBit.get_data r ≠ "anonymous" →
      ∃ user : PyUser, r = RequestUser.attr (some user) ∧
        user.is_authenticated = true) := by
  refine ⟨rfl, rfl, ?_, ?_⟩
  · intro user h
    simp [UserKeyBit.get_data, h]
  · intro r h
    cases r with
    | noAttr => exact absurd rfl h
    | attr u =>
      cases u with
      | none => exact absurd rfl h
      | some user =>
        cases hu : user.is_authenticated with
        | false => exact absurd (by simp [UserKeyBit.get_data, hu]) h
        | true => exact ⟨user, rfl, hu⟩

/-- Witness for C9: an unauthenticated user object still yields
`"anonymous"`. -/
theorem userKeyBit_missing_or_falsy_witness :
    UserKeyBit.get_data (RequestUser.attr (some ⟨7, false⟩)) = "anonymous" :=
  userKeyBit_missing_or_falsy.2.2.1 ⟨7, false⟩ rfl

/-- Claim C6: the headers bit retrieves each configured canonical header
name's value from the environment mapping under the transformed lookup key
and stores it under the lower-cased canonical name; for `"Accept-Language"`
with environment entry `http_accept_language = "ru"` the output is exactly
`{"accept-language": "ru"}`. -/
theorem headersKeyBit_spec :
    (∀ (META : SourceDict) (params : List String) (k : String) (v : PyVal),
      k ∈ params →
      SourceDict.get META (prepare_header_name (pyLower k)) = v →
      v ≠ PyVal.pyNone →
      HeadersKeyBit.get_data META params (pyLower k) = some (force_text v)) ∧
    HeadersKeyBit.get_data sampleMETA ["Accept-Language"]
      = dictInsert emptyDict "accept-language" "ru" := by
  constructor
  · intro META params k v hk hv hvn
    exact stepFold_present META
      (fun key => prepare_header_name (pyLower key))
      (fun key => pyLower key)
      prepare_header_name (fun _ => rfl)
      k v hv hvn params emptyDict (Or.inr hk)
  · rfl

/-- Witness for C6: the claim's concrete example, obtained through the
general part of the theorem. -/
theorem headersKeyBit_spec_witness :
    HeadersKeyBit.get_data sampleMETA ["Accept-Language"] "accept-language"
      = some "ru" :=
  headersKeyBit_spec.1 sampleMETA ["Accept-Language"] "Accept-Language"
    (PyVal.str "ru") (by decide) (by decide) (by decide)

/-- Claim C7: with no explicitly configured fields the kwargs bit looks up
every key present in the call's keyword arguments; on kwargs
`{"id": "5", "format": "json"}` the output is exactly that mapping. -/
theorem kwargsKeyBit_default_fields :
    (∀ kwargs : List (String × PyVal),
      KwargsKeyBit.get_data none kwargs
        = KeyBitDictBase.get_data (pyDictGet kwargs) id id
            (kwargs.map Prod.fst)) ∧
    KwargsKeyBit.get_data none kwargsSample
      = dictInsert (dictInsert emptyDict "id" "5") "format" "json" :=
  ⟨fun _ => rfl, rfl⟩

/-- Claim C10: an explicitly configured empty field list is falsy in
Python's `params or kwargs.keys()`, so the kwargs bit behaves exactly as if
no fields were configured, rather than selecting nothing. -/
theorem kwargsKeyBit_empty_params_fallback :
    (∀ kwargs : List (String × PyVal),
      KwargsKeyBit.get_data (some []) kwargs
        = KwargsKeyBit.get_data none kwargs) ∧
    KwargsKeyBit.get_data (some []) kwargsSample
      = dictInsert (dictInsert emptyDict "id" "5") "format" "json" :=
  ⟨fun _ => rfl, rfl⟩

/-- Claim C8: every key bit's `get_data` is a deterministic function of
its context tuple and configured parameters — invoking it twice with an
unchanged context yields an identical result, there being no hidden state
in the embedding of any bit. -/
theorem keyBits_deterministic :
    (∀ view_instance : ViewIdent,
      UniqueViewIdKeyBit.get_data view_instance
        = UniqueViewIdKeyBit.get_data view_instance) ∧
    (∀ (view_instance : ViewIdent) (method_name : String),
      UniqueMethodIdKeyBit.get_data view_instance method_name
        = UniqueMethodIdKeyBit.get_data view_instance method_name) ∧
    (∀ active_language : String,
      LanguageKeyBit.get_data active_language
        = LanguageKeyBit.get_data active_language) ∧
    (∀ fmt : String, FormatKeyBit.get_data fmt = FormatKeyBit.get_data fmt) ∧
    (∀ r : RequestUser, UserKeyBit.get_data r = UserKeyBit.get_data r) ∧
    (∀ (source_dict : SourceDict) (pr pa : String → String)
        (params : List String),
      KeyBitDictBase.get_data source_dict pr pa params
        = KeyBitDictBase.get_data source_dict pr pa params) ∧
    (∀ (META : SourceDict) (params : List String),
      HeadersKeyBit.get_data META params = HeadersKeyBit.get_data META params) ∧
    (∀ (META : SourceDict) (params : List String),
      RequestMetaKeyBit.get_data META params
        = RequestMetaKeyBit.get_data META params) ∧
    (∀ (GET : SourceDict) (params : List String),
      QueryParamsKeyBit.get_data GET params
        = QueryParamsKeyBit.get_data GET params) ∧
    (∀ (view_instance : PaginatedView) (params : List String)
        (GET : SourceDict),
      PaginationKeyBit.get_data view_instance params GET
        = PaginationKeyBit.get_data view_instance params GET) ∧
    (∀ view_instance : SqlView,
      ListSqlQueryKeyBit.get_data view_instance
        = ListSqlQueryKeyBit.get_data view_instance) ∧
    (∀ view_instance : SqlView,
      RetrieveSqlQueryKeyBit.get_data view_instance
        = RetrieveSqlQueryKeyBit.get_data view_instance) ∧
    (∀ (params : Option (List Nat)) (args : List PyVal),
      ArgsKeyBit.get_data params args = ArgsKeyBit.get_data params args) ∧
    (∀ (params : Option (List String)) (kwargs : List (String × PyVal)),
      KwargsKeyBit.get_data params kwargs
        = KwargsKeyBit.get_data params kwargs) :=
  ⟨fun _ => rfl, fun _ _ => rfl, fun _ => rfl, fun _ => rfl, fun _ => rfl,
   fun _ _ _ _ => rfl, fun _ _ => rfl, fun _ _ => rfl, fun _ _ => rfl,
   fun _ _ _ => rfl, fun _ => rfl, fun _ => rfl, fun _ _ => rfl,
   fun _ _ => rfl⟩
